import Mathlib

/-!
Verification of `components/esp_driver_parlio/test_apps/parlio/pytest_parlio_unity.py`.

The file declares a single pytest test function `test_parlio`, decorated with
five markers and one `parametrize` call, whose body is the single statement
`dut.run_all_single_board_cases()`.

We embed two views of the file:

1. `testParlioDecl` — the static declaration metadata: the applied markers in
   source order, the parametrization (argument name, value list, indirect
   flag), and the function signature (parameter list with annotations and the
   return annotation), transcribed from lines 7 to 20 of the source.

2. `test_parlio` — the dynamic semantics of the function body (line 21).  A
   `Dut` is abstracted by the behaviour of its `run_all_single_board_cases`
   method: given the external world it yields either a normally returned
   Python value or a raised exception, together with the updated world.  An
   execution of `test_parlio` records its result, the module globals, the
   external world and the trace of method calls it performs.
-/

/-- A Python runtime value, as far as this file needs: the body discards the
value of its one call and falls off the end, so a normal call returns
`PyValue.none` (Python `None`). -/
inductive PyValue where
  | none
  | bool (b : Bool)
  | int (n : Int)
  | str (s : String)
deriving DecidableEq, Repr

/-- A raised Python exception, abstracted by its class name and message. -/
structure PyExn where
  exnClass : String
  message : String
deriving DecidableEq, Repr

/-- Module-level global bindings of the test module. -/
abbrev Globals := List (String × PyValue)

/-- The external world (device, harness resources) that only the dut method
itself may touch. -/
abbrev World := List (String × PyValue)

/-- An observable event performed by the test function: a method call on a
named receiver with an argument list. -/
inductive Event where
  | methodCall (receiver : String) (method : String) (args : List PyValue)
deriving DecidableEq, Repr

/-- The device-under-test abstraction.  Its one method relevant to this file,
`run_all_single_board_cases`, acts on the external world and either returns a
value normally or raises an exception. -/
structure Dut where
  runAllSingleBoardCases : World → (Except PyExn PyValue) × World

/-- The outcome of executing the test function once: its result (a returned
value or a propagated exception), the final module globals, the final
external world, and the trace of method calls the body performed. -/
structure ExecOutcome where
  result : Except PyExn PyValue
  globals : Globals
  world : World
  trace : List Event

/-- Dynamic semantics of the body of `test_parlio` (source line 21):
the single statement `dut.run_all_single_board_cases()`.  The call is made
with no arguments; its value is discarded; if it raises, the exception
propagates (the file has no try/except); falling off the end of the function
returns `None`.  The module globals are not touched. -/
def test_parlio (dut : Dut) (g : Globals) (w : World) : ExecOutcome :=
  let step := dut.runAllSingleBoardCases w
  { result :=
      match step.1 with
      | Except.ok _ => Except.ok PyValue.none
      | Except.error e => Except.error e
    globals := g
    world := step.2
    trace := [Event.methodCall "dut" "run_all_single_board_cases" []] }

/-- A pytest marker applied to the test, identified by its name. -/
structure Marker where
  name : String
deriving DecidableEq, Repr

/-- One `pytest.mark.parametrize` application: the parametrized argument
name, the list of values in source order, and the `indirect` flag. -/
structure Parametrize where
  argname : String
  values : List String
  indirect : Bool
deriving DecidableEq, Repr

/-- A formal parameter of the test function with its type annotation. -/
structure Param where
  name : String
  annot : String
deriving DecidableEq, Repr

/-- The static declaration metadata of a pytest test function. -/
structure TestDecl where
  markers : List Marker
  parametrizations : List Parametrize
  funcName : String
  params : List Param
  returnAnnot : String
deriving DecidableEq, Repr

/-- The declaration metadata of `test_parlio`, transcribed from source lines
7 to 20: five markers in source order, one parametrization of `config` over
two values with `indirect=True`, and the signature `(dut: Dut) -> None`. -/
def testParlioDecl : TestDecl :=
  { markers :=
      [⟨"esp32c5"⟩, ⟨"esp32c6"⟩, ⟨"esp32h2"⟩, ⟨"esp32p4"⟩, ⟨"generic"⟩]
    parametrizations :=
      [{ argname := "config"
         values := ["cache_safe", "release"]
         indirect := true }]
    funcName := "test_parlio"
    params := [{ name := "dut", annot := "Dut" }]
    returnAnnot := "None" }

/-- The framework-side view of one parametrized case: pytest resolves the
`config` parameter indirectly through fixtures, and then calls the test
function with exactly the arguments named in its signature.  The signature
of `test_parlio` names `dut` alone, so `config` is not passed to the
function. -/
def runParametrizedCase (_config : String) (dut : Dut) (g : Globals) (w : World) :
    ExecOutcome :=
  test_parlio dut g w

/-- C1: for every dut, `test_parlio` performs exactly one operation — a call
of `run_all_single_board_cases` on `dut` with no arguments — and, whenever
that call completes normally, the function returns `None`; a normal run does
nothing else. -/
theorem test_parlio_single_delegation (dut : Dut) (g : Globals) (w : World) :
    (test_parlio dut g w).trace
      = [Event.methodCall "dut" "run_all_single_board_cases" []] ∧
    (test_parlio dut g w).result
      = ((dut.runAllSingleBoardCases w).1).map (fun _ => PyValue.none) := by
  refine ⟨rfl, ?_⟩
  unfold test_parlio
  cases h : (dut.runAllSingleBoardCases w).1 <;> simp [h, Except.map]

/-- C2: the declaration of `test_parlio` carries exactly five markers. -/
theorem test_parlio_five_markers : testParlioDecl.markers.length = 5 := by
  decide

/-- C3: the configuration axis is a single parametrization of the argument
`config`, and its value list contains exactly two entries. -/
theorem test_parlio_two_configs :
    testParlioDecl.parametrizations.map (fun p => (p.argname, p.values.length))
      = [("config", 2)] := by
  decide

/-- C4: every exception raised by `dut.run_all_single_board_cases()` during
`test_parlio` propagates out of the function unhandled: the result of the
run is exactly that exception. -/
theorem test_parlio_propagates_exceptions (dut : Dut) (g : Globals) (w : World)
    (e : PyExn) (w' : World)
    (h : dut.runAllSingleBoardCases w = (Except.error e, w')) :
    (test_parlio dut g w).result = Except.error e := by
  unfold test_parlio
  simp [h]

/-- A concrete dut whose `run_all_single_board_cases` method raises. -/
def raisingDut : Dut :=
  { runAllSingleBoardCases := fun w =>
      (Except.error ⟨"AssertionError", "case failed"⟩, w) }

/-- Witness for C4: running `test_parlio` on a dut whose method raises an
`AssertionError` yields exactly that exception. -/
theorem test_parlio_propagates_exceptions_witness :
    (test_parlio raisingDut [] []).result
      = Except.error ⟨"AssertionError", "case failed"⟩ :=
  test_parlio_propagates_exceptions raisingDut [] []
    ⟨"AssertionError", "case failed"⟩ [] rfl

/-- C5: `test_parlio` has no effects of its own beyond the one method call on
`dut`: the module globals are left unchanged, the final external world is
exactly what the dut method produced, and the trace contains only that single
call. -/
theorem test_parlio_frame (dut : Dut) (g : Globals) (w : World) :
    (test_parlio dut g w).globals = g ∧
    (test_parlio dut g w).world = (dut.runAllSingleBoardCases w).2 ∧
    (test_parlio dut g w).trace
      = [Event.methodCall "dut" "run_all_single_board_cases" []] := by
  exact ⟨rfl, rfl, rfl⟩

/-- C6: the behaviour of `test_parlio` is independent of the `config`
parametrization value: `config` is consumed indirectly by the fixture and is
not a parameter of the function, so two runs of a parametrized case with the
same dut and the same state but different config values are identical, call
sequence included. -/
theorem test_parlio_config_independent (c₁ c₂ : String) (dut : Dut)
    (g : Globals) (w : World) :
    runParametrizedCase c₁ dut g w = runParametrizedCase c₂ dut g w := rfl

/-- C7: the signature of `test_parlio` has exactly one parameter, `dut`,
annotated `Dut`, with declared return annotation `None`; and every normally
completing run returns `None` (a raised exception passes through instead). -/
theorem test_parlio_signature :
    testParlioDecl.params = [{ name := "dut", annot := "Dut" }] ∧
    testParlioDecl.returnAnnot = "None" ∧
    ∀ (dut : Dut) (g : Globals) (w : World),
      (test_parlio dut g w).result
        = ((dut.runAllSingleBoardCases w).1).map (fun _ => PyValue.none) := by
  refine ⟨rfl, rfl, fun dut g w => ?_⟩
  unfold test_parlio
  cases h : (dut.runAllSingleBoardCases w).1 <;> simp [h, Except.map]

/-- C8: the two recognized configuration values are exactly the strings
`cache_safe` and `release`, in that source order, with `cache_safe` first. -/
theorem test_parlio_config_values :
    testParlioDecl.parametrizations.map (fun p => p.values)
      = [["cache_safe", "release"]] := by
  decide

/-- C9: the five markers applied to `test_parlio` are exactly, in declaration
order, `esp32c5`, `esp32c6`, `esp32h2`, `esp32p4` and `generic`. -/
theorem test_parlio_marker_names :
    testParlioDecl.markers.map Marker.name
      = ["esp32c5", "esp32c6", "esp32h2", "esp32p4", "generic"] := by
  decide
